import Mathlib

/-!
RescueLink backend, alert lifecycle and dispatch assignment.

Shallow embedding of `src/routes/alerts.js`: the Express route handlers for
emergency alerts, modelled as pure functions over an explicit store state.

The external record store (supabase) is modelled per the contract in the
spec (§3, §6): a read that matches no row yields `none` (no store error),
an update touches every row matching the id filter, and secondary
vehicle-status writes may fail; a failed write leaves the vehicles table
unchanged.  JavaScript truthiness on optional values (`!x`, `x || null`,
`x ? y : z`) is modelled explicitly: a missing value, the empty string and
the number `0` are falsy.
-/

namespace RescueLink

/-- A caller identity, as delivered by the auth middleware (`req.user`). -/
structure Caller where
  id : Nat
  role : String
deriving DecidableEq, Repr

/-- An alert record, the row shape of the `alerts` table. -/
structure Alert where
  id : Nat
  user_id : Nat
  alert_type : String
  severity : String
  title : String
  description : Option String
  location : String
  latitude : Option Rat
  longitude : Option Rat
  image_url : Option String
  status : String
  assigned_vehicle_id : Option Nat
  assigned_responder_id : Option Nat
  reported_at : Nat
  updated_at : Nat
deriving DecidableEq, Repr

/-- The slice of a vehicle record this core reads and writes. -/
structure Vehicle where
  id : Nat
  status : String
deriving DecidableEq, Repr

/-- The durable state of the record store. -/
structure St where
  alerts : List Alert
  vehicles : List Vehicle
  nextId : Nat
deriving DecidableEq, Repr

/-- All handler outcomes: HTTP status category plus payload. -/
inductive Response where
  | ok (a : Alert)
  | okList (l : List Alert)
  | okNull
  | created (a : Alert)
  | badRequest (msg : String)
  | forbidden (msg : String)
  | notFound (msg : String)
  | serverError (msg : String)
deriving DecidableEq, Repr

/-- Is this response a 400 BadRequest? -/
def Response.isBadRequest : Response → Bool
  | .badRequest _ => true
  | _ => false

/-- Is this response a 403 Forbidden? -/
def Response.isForbidden : Response → Bool
  | .forbidden _ => true
  | _ => false

/-- JavaScript truthiness of an optional string: missing and `""` are falsy. -/
def jsTruthyStr : Option String → Bool
  | some t => !(t == "")
  | none => false

/-- JavaScript truthiness of an optional number: missing and `0` are falsy. -/
def jsTruthyNat : Option Nat → Bool
  | some n => !(n == 0)
  | none => false

/-- JavaScript truthiness of an optional numeric (float) value. -/
def jsTruthyRat : Option Rat → Bool
  | some q => !(q == 0)
  | none => false

/-- Model of JavaScript `String.prototype.trim()`: strip leading and
trailing whitespace (structural, so that it evaluates in the kernel). -/
def jsTrim (str : String) : String :=
  String.mk ((str.toList.dropWhile Char.isWhitespace).reverse.dropWhile
    Char.isWhitespace).reverse

/-- Model of `supabase.from('alerts').select(...).eq('id', aid).single()`: the
first row with the given id, `none` when no row matches. -/
def St.findAlert (s : St) (aid : Nat) : Option Alert :=
  s.alerts.find? (fun a => a.id == aid)

/-- The first vehicle row with the given id. -/
def St.findVehicle (s : St) (vid : Nat) : Option Vehicle :=
  s.vehicles.find? (fun v => v.id == vid)

/-- Model of the vehicles-table write `update({status}).eq('id', vid)`: set
the status of every vehicle row whose id matches. -/
def setVehicleStatus (vid : Nat) (st : String) (vs : List Vehicle) : List Vehicle :=
  vs.map (fun v => if v.id == vid then { v with status := st } else v)

/-- Model of the alerts-table write `update(...).eq('id', aid)`: apply the
row update `f` to every alert row whose id matches. -/
def updateAlertsRow (aid : Nat) (f : Alert → Alert) (l : List Alert) : List Alert :=
  l.map (fun a => if a.id == aid then f a else a)

/-- The enumerated alert types. -/
def validAlertTypes : List String :=
  ["medical", "fire", "accident", "crime", "natural_disaster", "other"]

/-- The enumerated severities. -/
def validSeverities : List String :=
  ["low", "medium", "high", "critical"]

/-- The enumerated alert statuses. -/
def validStatuses : List String :=
  ["pending", "responding", "resolved", "cancelled"]

/-- Insert an alert into a list kept in descending `reported_at` order. -/
def insertByReportedDesc (a : Alert) : List Alert → List Alert
  | [] => [a]
  | b :: t =>
    if a.reported_at ≤ b.reported_at then b :: insertByReportedDesc a t
    else a :: b :: t

/-- Model of the order clause on `reported_at` (descending sort). -/
def sortByReportedDesc : List Alert → List Alert
  | [] => []
  | a :: t => insertByReportedDesc a (sortByReportedDesc t)

/-- Handler for `GET /`: list alerts with optional filters.  Query parameters are
absent or strings; `user_id` is modelled already parsed to a number. -/
def getAlerts (caller : Caller) (statusF alertTypeF : Option String)
    (userIdF : Option Nat) (s : St) : Response :=
  let l1 := if jsTruthyStr statusF then
      s.alerts.filter (fun a => a.status == statusF.getD "") else s.alerts
  let l2 := if jsTruthyStr alertTypeF then
      l1.filter (fun a => a.alert_type == alertTypeF.getD "") else l1
  let l3 :=
    if caller.role == "user" then
      l2.filter (fun a => a.user_id == caller.id)
    else if userIdF.isSome then
      l2.filter (fun a => a.user_id == userIdF.getD 0)
    else l2
  .okList (sortByReportedDesc l3)

/-- Handler for `GET /:id`: fetch one alert; 404 when no row matches, 403 when a
`user`-role caller targets someone else's alert. -/
def getAlertById (caller : Caller) (aid : Nat) (s : St) : Response :=
  match s.findAlert aid with
  | none => .notFound "Alert not found"
  | some a =>
    if caller.role == "user" && !(a.user_id == caller.id) then
      .forbidden "Access denied"
    else .ok a

/-- The JSON body of `POST /` (fields absent from the request are `none`). -/
structure CreateBody where
  alert_type : Option String := none
  severity : Option String := none
  title : Option String := none
  description : Option String := none
  location : Option String := none
  latitude : Option Rat := none
  longitude : Option Rat := none
  image_url : Option String := none
deriving DecidableEq, Repr

/-- The record `const alertData = {...}` built by `POST /` from a payload
that passed validation; the store assigns the id and stamps the times. -/
def alertData (caller : Caller) (b : CreateBody) (aid now : Nat) : Alert :=
  { id := aid
    user_id := caller.id
    alert_type := b.alert_type.getD ""
    severity := b.severity.getD ""
    title := jsTrim (b.title.getD "")
    description :=
      match b.description with
      | some d => if jsTrim d == "" then none else some (jsTrim d)
      | none => none
    location := jsTrim (b.location.getD "")
    latitude := if jsTruthyRat b.latitude then b.latitude else none
    longitude := if jsTruthyRat b.longitude then b.longitude else none
    image_url := if jsTruthyStr b.image_url then b.image_url else none
    status := "pending"
    assigned_vehicle_id := none
    assigned_responder_id := none
    reported_at := now
    updated_at := now }

/-- Handler for `POST /`: create a new alert.  Validates required fields by
JS truthiness, then enum membership; persists `alertData`. -/
def createAlert (caller : Caller) (b : CreateBody) (now : Nat) (s : St) :
    Response × St :=
  if !(jsTruthyStr b.alert_type) || !(jsTruthyStr b.severity) ||
     !(jsTruthyStr b.title) || !(jsTruthyStr b.location) then
    (.badRequest "Missing required fields", s)
  else if !(validAlertTypes.contains (b.alert_type.getD "")) then
    (.badRequest "Invalid alert type", s)
  else if !(validSeverities.contains (b.severity.getD "")) then
    (.badRequest "Invalid severity level", s)
  else
    (.created (alertData caller b s.nextId now),
     { s with alerts := s.alerts ++ [alertData caller b s.nextId now],
              nextId := s.nextId + 1 })

/-- The JSON body of `PUT /:id`: any subset of columns; a nullable column
may also be present with an explicit `null` (the inner `none`). -/
structure UpdateBody where
  alert_type : Option String := none
  severity : Option String := none
  title : Option String := none
  description : Option (Option String) := none
  location : Option String := none
  latitude : Option (Option Rat) := none
  longitude : Option (Option Rat) := none
  image_url : Option (Option String) := none
  status : Option String := none
  user_id : Option Nat := none
  assigned_vehicle_id : Option (Option Nat) := none
  assigned_responder_id : Option (Option Nat) := none
deriving DecidableEq, Repr

/-- The partial column update `{...req.body, updated_at: now}` applied to
one row: every key present in the body is written verbatim, keys absent
are left untouched. -/
def mergeAlert (a : Alert) (b : UpdateBody) (now : Nat) : Alert :=
  { a with
    alert_type := b.alert_type.getD a.alert_type
    severity := b.severity.getD a.severity
    title := b.title.getD a.title
    description := b.description.getD a.description
    location := b.location.getD a.location
    latitude := b.latitude.getD a.latitude
    longitude := b.longitude.getD a.longitude
    image_url := b.image_url.getD a.image_url
    status := b.status.getD a.status
    user_id := b.user_id.getD a.user_id
    assigned_vehicle_id := b.assigned_vehicle_id.getD a.assigned_vehicle_id
    assigned_responder_id := b.assigned_responder_id.getD a.assigned_responder_id
    updated_at := now }

/-- Handler for `PUT /:id`: admin/dispatcher full-field update; no enum validation,
no vehicle interaction; 404 when the id resolves to no row. -/
def updateAlert (caller : Caller) (aid : Nat) (b : UpdateBody) (now : Nat)
    (s : St) : Response × St :=
  if !(["admin", "dispatcher"].contains caller.role) then
    (.forbidden "Access denied", s)
  else
    match s.findAlert aid with
    | none => (.notFound "Alert not found", s)
    | some a =>
      (.ok (mergeAlert a b now),
       { s with alerts := updateAlertsRow aid (fun x => mergeAlert x b now) s.alerts })

/-- The two conditional vehicle writes performed by `PATCH /:id/status`
after the alert write (the spec's ReconcileVehicleOnStatusChange): a
`responding` alert claims its assigned vehicle, a `resolved` alert releases
it; nothing happens for other statuses or when no vehicle is assigned.
`writeFails` models a store failure of the write: the vehicles table is
then left unchanged (the handler never inspects the write's outcome). -/
def reconcileVehicleOnStatusChange (vid : Option Nat) (newStatus : String)
    (writeFails : Bool) (vs : List Vehicle) : List Vehicle :=
  let vs1 :=
    if newStatus == "responding" && jsTruthyNat vid && !writeFails then
      setVehicleStatus (vid.getD 0) "responding" vs
    else vs
  if newStatus == "resolved" && jsTruthyNat vid && !writeFails then
    setVehicleStatus (vid.getD 0) "available" vs1
  else vs1

/-- Handler for `PATCH /:id/status`: validate the status value, gate on role
{admin, dispatcher, rescuer}, write the alert, then reconcile the assigned
vehicle: `responding` claims it, `resolved` releases it.  The vehicle
write's outcome is never inspected (`vehWriteFails` models a store failure
of that secondary write: the vehicles table is left unchanged).  A missing
alert id makes the handler dereference a null row and fail with 500. -/
def updateStatus (caller : Caller) (aid : Nat) (status : Option String)
    (now : Nat) (vehWriteFails : Bool) (s : St) : Response × St :=
  match status with
  | none => (.badRequest "Invalid status", s)
  | some st =>
    if !(validStatuses.contains st) then
      (.badRequest "Invalid status", s)
    else if !(["admin", "dispatcher", "rescuer"].contains caller.role) then
      (.forbidden "Access denied", s)
    else
      match s.findAlert aid with
      | none => (.serverError "Server error", s)
      | some a =>
        let a' := { a with status := st, updated_at := now }
        let alerts' :=
          updateAlertsRow aid (fun x => { x with status := st, updated_at := now }) s.alerts
        (.ok a',
         { s with alerts := alerts',
                  vehicles := reconcileVehicleOnStatusChange a'.assigned_vehicle_id st
                    vehWriteFails s.vehicles })

/-- Handler for `PATCH /:id/assign`: admin/dispatcher only.  Reads the current
assignment, overwrites `assigned_vehicle_id`/`assigned_responder_id` with
the requested values (`x || null`), then best-effort: releases the old
vehicle when it differs from the requested one, and claims the requested
vehicle.  Each vehicle write may fail in the store (`oldVehWriteFails`,
`newVehWriteFails`); the failure is at most logged, never surfaced, and
leaves the vehicles table unchanged.  A missing alert id responds 200
with a null body (no row check after the update). -/
def assignAlert (caller : Caller) (aid : Nat) (vehicle_id responder_id : Option Nat)
    (now : Nat) (oldVehWriteFails newVehWriteFails : Bool) (s : St) :
    Response × St :=
  if !(["admin", "dispatcher"].contains caller.role) then
    (.forbidden "Access denied", s)
  else
    let currentAssigned := (s.findAlert aid).bind Alert.assigned_vehicle_id
    let newVid := if jsTruthyNat vehicle_id then vehicle_id else none
    let newRid := if jsTruthyNat responder_id then responder_id else none
    let alerts' :=
      updateAlertsRow aid
        (fun x => { x with assigned_vehicle_id := newVid,
                           assigned_responder_id := newRid, updated_at := now })
        s.alerts
    let vehicles1 :=
      if jsTruthyNat currentAssigned && !(currentAssigned == vehicle_id) &&
         !oldVehWriteFails then
        setVehicleStatus (currentAssigned.getD 0) "available" s.vehicles
      else s.vehicles
    let vehicles2 :=
      if jsTruthyNat vehicle_id && !newVehWriteFails then
        setVehicleStatus (vehicle_id.getD 0) "assigned" vehicles1
      else vehicles1
    let s' : St := { s with alerts := alerts', vehicles := vehicles2 }
    match s.findAlert aid with
    | none => (.okNull, s')
    | some a =>
      (.ok { a with assigned_vehicle_id := newVid,
                    assigned_responder_id := newRid, updated_at := now }, s')

/-- A concrete alert fixture used by the witnesses below: alert 1 owned by
user 3, status pending, vehicle 10 assigned. -/
def alert1 : Alert :=
  { id := 1, user_id := 3, alert_type := "fire", severity := "low",
    title := "T", description := none, location := "L", latitude := none,
    longitude := none, image_url := none, status := "pending",
    assigned_vehicle_id := some 10, assigned_responder_id := none,
    reported_at := 0, updated_at := 0 }

/-- A concrete store fixture: `alert1` plus vehicles 10 and 20. -/
def store1 : St :=
  { alerts := [alert1],
    vehicles := [⟨10, "assigned"⟩, ⟨20, "available"⟩],
    nextId := 2 }

/-! Basic lemmas about the store-write models. -/

theorem mem_insertByReportedDesc (a x : Alert) (l : List Alert) :
    x ∈ insertByReportedDesc a l ↔ x = a ∨ x ∈ l := by
  induction l with
  | nil => simp [insertByReportedDesc]
  | cons b t ih =>
    by_cases h : a.reported_at ≤ b.reported_at
    · simp only [insertByReportedDesc, if_pos h, List.mem_cons, ih]
      tauto
    · simp only [insertByReportedDesc, if_neg h, List.mem_cons]

theorem mem_sortByReportedDesc (x : Alert) (l : List Alert) :
    x ∈ sortByReportedDesc l ↔ x ∈ l := by
  induction l with
  | nil => simp [sortByReportedDesc]
  | cons a t ih =>
    simp [sortByReportedDesc, mem_insertByReportedDesc, ih]

theorem find?_setVehicleStatus_self (vid : Nat) (st : String) (vs : List Vehicle) :
    (setVehicleStatus vid st vs).find? (fun v => v.id == vid)
      = (vs.find? (fun v => v.id == vid)).map (fun v => { v with status := st }) := by
  induction vs with
  | nil => rfl
  | cons v t ih =>
    simp only [setVehicleStatus, List.map_cons] at ih ⊢
    cases hm : (v.id == vid) with
    | true =>
      rw [if_pos rfl, List.find?_cons_of_pos _ (by exact hm),
          List.find?_cons_of_pos _ (by exact hm)]
      rfl
    | false =>
      rw [if_neg (by simp), List.find?_cons_of_neg _ (by simp [hm]),
          List.find?_cons_of_neg _ (by simp [hm])]
      exact ih

theorem find?_setVehicleStatus_other (vid vid' : Nat) (st : String)
    (vs : List Vehicle) (h : vid' ≠ vid) :
    (setVehicleStatus vid st vs).find? (fun v => v.id == vid')
      = vs.find? (fun v => v.id == vid') := by
  induction vs with
  | nil => rfl
  | cons v t ih =>
    simp only [setVehicleStatus, List.map_cons] at ih ⊢
    cases hm : (v.id == vid) with
    | true =>
      have hm' : v.id = vid := by simpa using hm
      have hne : (v.id == vid') = false := by
        simp only [hm', beq_eq_false_iff_ne]
        exact fun he => h he.symm
      rw [if_pos rfl, List.find?_cons_of_neg _ (by simp [hne]),
          List.find?_cons_of_neg _ (by simp [hne])]
      exact ih
    | false =>
      rw [if_neg (by simp)]
      cases hm' : (v.id == vid') with
      | true =>
        rw [List.find?_cons_of_pos _ (by exact hm'), List.find?_cons_of_pos _ (by exact hm')]
      | false =>
        rw [List.find?_cons_of_neg _ (by simp [hm']), List.find?_cons_of_neg _ (by simp [hm'])]
        exact ih

theorem find?_updateAlertsRow_self (aid : Nat) (f : Alert → Alert) (l : List Alert)
    (hf : ∀ a, (f a).id = a.id) :
    (updateAlertsRow aid f l).find? (fun a => a.id == aid)
      = (l.find? (fun a => a.id == aid)).map f := by
  induction l with
  | nil => rfl
  | cons a t ih =>
    simp only [updateAlertsRow, List.map_cons] at ih ⊢
    cases hm : (a.id == aid) with
    | true =>
      rw [if_pos rfl, List.find?_cons_of_pos _ (by rw [show ((f a).id == aid) = (a.id == aid) from by rw [hf]]; exact hm),
          List.find?_cons_of_pos _ (by exact hm)]
      rfl
    | false =>
      rw [if_neg (by simp), List.find?_cons_of_neg _ (by simp [hm]),
          List.find?_cons_of_neg _ (by simp [hm])]
      exact ih

theorem updateStatus_ok (caller : Caller) (aid : Nat) (st : String) (now : Nat)
    (vf : Bool) (s : St) (a : Alert)
    (hrole : (["admin", "dispatcher", "rescuer"].contains caller.role) = true)
    (hst : validStatuses.contains st = true)
    (hfind : s.findAlert aid = some a) :
    updateStatus caller aid (some st) now vf s =
      (.ok { a with status := st, updated_at := now },
       { s with
          alerts := updateAlertsRow aid
            (fun x => { x with status := st, updated_at := now }) s.alerts,
          vehicles := reconcileVehicleOnStatusChange a.assigned_vehicle_id st vf
            s.vehicles }) := by
  have hst' : st ∈ validStatuses := by simpa using hst
  have hrole' : caller.role = "admin" ∨ caller.role = "dispatcher" ∨
      caller.role = "rescuer" := by simpa using hrole
  have hr : ¬(¬caller.role = "admin" ∧ ¬caller.role = "dispatcher" ∧
      ¬caller.role = "rescuer") := by tauto
  simp [updateStatus, hst', hr, hfind]

theorem assignAlert_ok (caller : Caller) (aid : Nat) (vid rid : Option Nat)
    (now : Nat) (ovf nvf : Bool) (s : St) (a : Alert)
    (hrole : (["admin", "dispatcher"].contains caller.role) = true)
    (hfind : s.findAlert aid = some a) :
    assignAlert caller aid vid rid now ovf nvf s =
      (.ok { a with assigned_vehicle_id := if jsTruthyNat vid then vid else none,
                    assigned_responder_id := if jsTruthyNat rid then rid else none,
                    updated_at := now },
       { s with
          alerts := updateAlertsRow aid
            (fun x => { x with
                assigned_vehicle_id := if jsTruthyNat vid then vid else none,
                assigned_responder_id := if jsTruthyNat rid then rid else none,
                updated_at := now }) s.alerts,
          vehicles :=
            (let vehicles1 :=
              if jsTruthyNat a.assigned_vehicle_id &&
                  !(a.assigned_vehicle_id == vid) && !ovf then
                setVehicleStatus (a.assigned_vehicle_id.getD 0) "available" s.vehicles
              else s.vehicles
             if jsTruthyNat vid && !nvf then
               setVehicleStatus (vid.getD 0) "assigned" vehicles1
             else vehicles1) }) := by
  have hrole' : caller.role = "admin" ∨ caller.role = "dispatcher" := by
    simpa using hrole
  have hr : ¬(¬caller.role = "admin" ∧ ¬caller.role = "dispatcher") := by tauto
  simp [assignAlert, hr, hfind]

/-! The claims. -/

/-- C3: for every List call by a caller whose role is `user`, every alert in
the returned list has `user_id` equal to the caller's id, regardless of any
`user_id` filter supplied in the request. -/
theorem getAlerts_user_sees_only_own (caller : Caller)
    (statusF alertTypeF : Option String) (userIdF : Option Nat) (s : St)
    (hrole : caller.role = "user") :
    ∃ l, getAlerts caller statusF alertTypeF userIdF s = .okList l ∧
      ∀ a ∈ l, a.user_id = caller.id := by
  refine ⟨_, rfl, ?_⟩
  intro a ha
  rw [mem_sortByReportedDesc] at ha
  simp only [hrole] at ha
  rw [if_pos (by rfl)] at ha
  exact by simpa using (List.mem_filter.mp ha).2

/-- Witness for C3 at a concrete caller and store. -/
theorem getAlerts_user_sees_only_own_witness :
    (⟨3, "user"⟩ : Caller).role = "user" ∧
    ∃ l, getAlerts ⟨3, "user"⟩ none none (some 99) ⟨[], [], 1⟩ = .okList l ∧
      ∀ a ∈ l, a.user_id = 3 :=
  ⟨rfl, getAlerts_user_sees_only_own ⟨3, "user"⟩ none none (some 99) ⟨[], [], 1⟩ rfl⟩

/-- C6: for every Get call with an id for which no alert exists in the
store, the result is NotFound. -/
theorem getAlertById_notFound (caller : Caller) (aid : Nat) (s : St)
    (h : s.findAlert aid = none) :
    getAlertById caller aid s = .notFound "Alert not found" := by
  simp [getAlertById, h]

/-- Witness for C6 at a concrete id absent from a concrete store. -/
theorem getAlertById_notFound_witness :
    St.findAlert ⟨[], [], 1⟩ 42 = none ∧
    getAlertById ⟨9, "admin"⟩ 42 ⟨[], [], 1⟩ = .notFound "Alert not found" :=
  ⟨rfl, getAlertById_notFound ⟨9, "admin"⟩ 42 ⟨[], [], 1⟩ rfl⟩

/-- C5: for every Create payload missing any of alert_type, severity, title,
or location, or whose alert_type or severity is outside its enumerated set,
the result is BadRequest and no alert record is persisted. -/
theorem createAlert_rejects_invalid (caller : Caller) (b : CreateBody) (now : Nat) (s : St)
    (h : b.alert_type = none ∨ b.severity = none ∨ b.title = none ∨ b.location = none ∨
         (∃ t, b.alert_type = some t ∧ t ∉ validAlertTypes) ∨
         (∃ v, b.severity = some v ∧ v ∉ validSeverities)) :
    (createAlert caller b now s).1.isBadRequest = true ∧
    (createAlert caller b now s).2 = s := by
  by_cases h1 : (!(jsTruthyStr b.alert_type) || !(jsTruthyStr b.severity) ||
      !(jsTruthyStr b.title) || !(jsTruthyStr b.location)) = true
  · simp [createAlert, h1, Response.isBadRequest]
  · have h1' := h1
    simp only [Bool.or_eq_true, Bool.not_eq_true', not_or, Bool.not_eq_false] at h1'
    obtain ⟨⟨⟨hA, hS⟩, hT⟩, hL⟩ := h1'
    rcases h with hat | hsv | hti | hlo | ⟨t, hat, htv⟩ | ⟨v, hsv, hvv⟩
    · simp [hat, jsTruthyStr] at hA
    · simp [hsv, jsTruthyStr] at hS
    · simp [hti, jsTruthyStr] at hT
    · simp [hlo, jsTruthyStr] at hL
    · rw [hat] at hA
      simp [createAlert, hat, hA, hS, hT, hL, htv, Response.isBadRequest]
    · rw [hsv] at hS
      by_cases h2 : (b.alert_type.getD "") ∈ validAlertTypes
      · simp [createAlert, hsv, hA, hS, hT, hL, h2, hvv, Response.isBadRequest]
      · simp [createAlert, hsv, hA, hS, hT, hL, h2, Response.isBadRequest]

/-- Witness for C5: a payload with an alert_type outside the enumerated set
is rejected and the store is unchanged. -/
theorem createAlert_rejects_invalid_witness :
    ("flood" ∉ validAlertTypes) ∧
    (createAlert ⟨7, "user"⟩
        { alert_type := some "flood", severity := some "low", title := some "T",
          location := some "L" } 0 ⟨[], [], 1⟩).1.isBadRequest = true ∧
    (createAlert ⟨7, "user"⟩
        { alert_type := some "flood", severity := some "low", title := some "T",
          location := some "L" } 0 ⟨[], [], 1⟩).2 = ⟨[], [], 1⟩ :=
  ⟨by decide,
   (createAlert_rejects_invalid ⟨7, "user"⟩
     { alert_type := some "flood", severity := some "low", title := some "T",
       location := some "L" } 0 ⟨[], [], 1⟩
     (Or.inr (Or.inr (Or.inr (Or.inr (Or.inl ⟨"flood", rfl, by decide⟩)))))).1,
   (createAlert_rejects_invalid ⟨7, "user"⟩
     { alert_type := some "flood", severity := some "low", title := some "T",
       location := some "L" } 0 ⟨[], [], 1⟩
     (Or.inr (Or.inr (Or.inr (Or.inr (Or.inl ⟨"flood", rfl, by decide⟩)))))).2⟩

/-- C8 counterexample: a Create payload whose title is only whitespace is
not rejected — it is accepted (201) and a record is persisted (with the
title trimmed to the empty string). -/
theorem createAlert_whitespace_title_cex :
    (createAlert ⟨7, "user"⟩
        { alert_type := some "fire", severity := some "low", title := some "   ",
          location := some "EDSA" } 0 ⟨[], [], 1⟩).1.isBadRequest = false ∧
    (createAlert ⟨7, "user"⟩
        { alert_type := some "fire", severity := some "low", title := some "   ",
          location := some "EDSA" } 0 ⟨[], [], 1⟩).2.alerts.length = 1 := by
  decide

/-- C8 amended: the required-field check on title is JS truthiness, not
emptiness after trimming.  A payload whose title is non-empty but consists
only of whitespace passes validation; the alert is created and persisted
with its title trimmed to the empty string.  (Only a missing title or the
empty string is rejected with BadRequest.) -/
theorem createAlert_whitespace_title_accepted (caller : Caller) (b : CreateBody)
    (now : Nat) (s : St) (t ty sv loc : String)
    (hti : b.title = some t) (htne : t ≠ "") (htrim : jsTrim t = "")
    (hty : b.alert_type = some ty) (htyv : ty ∈ validAlertTypes)
    (hsv : b.severity = some sv) (hsvv : sv ∈ validSeverities)
    (hlo : b.location = some loc) (hlone : loc ≠ "") :
    ∃ r, (createAlert caller b now s).1 = .created r ∧ r.title = "" ∧
      (createAlert caller b now s).2.alerts = s.alerts ++ [r] := by
  have htyne : ty ≠ "" := by
    rcases (by simpa [validAlertTypes] using htyv :
        ty = "medical" ∨ ty = "fire" ∨ ty = "accident" ∨ ty = "crime" ∨
        ty = "natural_disaster" ∨ ty = "other") with rfl | rfl | rfl | rfl | rfl | rfl <;>
      decide
  have hsvne : sv ≠ "" := by
    rcases (by simpa [validSeverities] using hsvv :
        sv = "low" ∨ sv = "medium" ∨ sv = "high" ∨ sv = "critical") with
      rfl | rfl | rfl | rfl <;> decide
  have hA : jsTruthyStr (some ty) = true := by simp [jsTruthyStr, htyne]
  have hS : jsTruthyStr (some sv) = true := by simp [jsTruthyStr, hsvne]
  have hT : jsTruthyStr b.title = true := by simp [hti, jsTruthyStr, htne]
  have hL : jsTruthyStr b.location = true := by simp [hlo, jsTruthyStr, hlone]
  refine ⟨alertData caller b s.nextId now, ?_, ?_, ?_⟩
  · simp [createAlert, hty, hsv, hA, hS, hT, hL, htyv, hsvv]
  · simp [alertData, hti, htrim]
  · simp [createAlert, hty, hsv, hA, hS, hT, hL, htyv, hsvv]

/-- Witness for the amended C8 at a concrete whitespace title. -/
theorem createAlert_whitespace_title_accepted_witness :
    ∃ r, (createAlert ⟨7, "user"⟩
        { alert_type := some "fire", severity := some "low", title := some "   ",
          location := some "EDSA" } 0 ⟨[], [], 1⟩).1 = .created r ∧ r.title = "" ∧
      (createAlert ⟨7, "user"⟩
        { alert_type := some "fire", severity := some "low", title := some "   ",
          location := some "EDSA" } 0 ⟨[], [], 1⟩).2.alerts = [] ++ [r] :=
  createAlert_whitespace_title_accepted ⟨7, "user"⟩
    { alert_type := some "fire", severity := some "low", title := some "   ",
      location := some "EDSA" } 0 ⟨[], [], 1⟩ "   " "fire" "low" "EDSA"
    rfl (by decide) (by decide) rfl (by decide) rfl (by decide) rfl (by decide)

/-- C10: for every valid Create payload, a latitude or longitude equal to 0
is stored as null (the `x ? parseFloat(x) : null` truthiness drops it),
while any other supplied numeric value is stored as given. -/
theorem createAlert_zero_coordinate_null (caller : Caller) (b : CreateBody)
    (now : Nat) (s : St) (ty sv t loc : String)
    (hty : b.alert_type = some ty) (htyv : ty ∈ validAlertTypes)
    (hsv : b.severity = some sv) (hsvv : sv ∈ validSeverities)
    (hti : b.title = some t) (htne : t ≠ "")
    (hlo : b.location = some loc) (hlone : loc ≠ "") :
    ∃ r, (createAlert caller b now s).1 = .created r ∧
      (b.latitude = some 0 → r.latitude = none) ∧
      (∀ q : Rat, q ≠ 0 → b.latitude = some q → r.latitude = some q) ∧
      (b.longitude = some 0 → r.longitude = none) ∧
      (∀ q : Rat, q ≠ 0 → b.longitude = some q → r.longitude = some q) := by
  have htyne : ty ≠ "" := by
    rcases (by simpa [validAlertTypes] using htyv :
        ty = "medical" ∨ ty = "fire" ∨ ty = "accident" ∨ ty = "crime" ∨
        ty = "natural_disaster" ∨ ty = "other") with rfl | rfl | rfl | rfl | rfl | rfl <;>
      decide
  have hsvne : sv ≠ "" := by
    rcases (by simpa [validSeverities] using hsvv :
        sv = "low" ∨ sv = "medium" ∨ sv = "high" ∨ sv = "critical") with
      rfl | rfl | rfl | rfl <;> decide
  have hA : jsTruthyStr (some ty) = true := by simp [jsTruthyStr, htyne]
  have hS : jsTruthyStr (some sv) = true := by simp [jsTruthyStr, hsvne]
  have hT : jsTruthyStr b.title = true := by simp [hti, jsTruthyStr, htne]
  have hL : jsTruthyStr b.location = true := by simp [hlo, jsTruthyStr, hlone]
  refine ⟨alertData caller b s.nextId now, ?_, ?_, ?_, ?_, ?_⟩
  · simp [createAlert, hty, hsv, hA, hS, hT, hL, htyv, hsvv]
  · intro hz; simp [alertData, hz, jsTruthyRat]
  · intro q hq hq'; simp [alertData, hq', jsTruthyRat, hq]
  · intro hz; simp [alertData, hz, jsTruthyRat]
  · intro q hq hq'; simp [alertData, hq', jsTruthyRat, hq]

/-- Witness for C10 at latitude 0 and a nonzero longitude. -/
theorem createAlert_zero_coordinate_null_witness :
    ∃ r, (createAlert ⟨7, "user"⟩
        { alert_type := some "accident", severity := some "high", title := some "T",
          location := some "L", latitude := some 0, longitude := some (29 / 2) }
        0 ⟨[], [], 1⟩).1 = .created r ∧
      r.latitude = none ∧ r.longitude = some (29 / 2) := by
  obtain ⟨r, h1, h2, _, _, h5⟩ := createAlert_zero_coordinate_null ⟨7, "user"⟩
    { alert_type := some "accident", severity := some "high", title := some "T",
      location := some "L", latitude := some 0, longitude := some (29 / 2) }
    0 ⟨[], [], 1⟩ "accident" "high" "T" "L"
    rfl (by decide) rfl (by decide) rfl (by decide) rfl (by decide)
  exact ⟨r, h1, h2 rfl, h5 (29 / 2) (by norm_num) rfl⟩

/-- C4 counterexample: a `user`-role caller submitting a status value
outside the enumerated set receives BadRequest, not Forbidden — the status
validation runs before the role check. -/
theorem updateStatus_user_invalid_status_cex :
    (updateStatus ⟨7, "user"⟩ 1 (some "archived") 0 false ⟨[], [], 1⟩).1
      = .badRequest "Invalid status" ∧
    (updateStatus ⟨7, "user"⟩ 1 (some "archived") 0 false ⟨[], [], 1⟩).1.isForbidden
      = false := by
  decide

/-- C4 amended: a SetStatus call by a caller whose role is `user` returns
Forbidden when the requested status is one of {pending, responding,
resolved, cancelled}; when the status is outside that set the validation
runs first and the result is BadRequest for every role, including `user`. -/
theorem updateStatus_user_forbidden (caller : Caller) (aid : Nat) (st : String)
    (now : Nat) (vf : Bool) (s : St) (hrole : caller.role = "user") :
    (st ∈ validStatuses →
      (updateStatus caller aid (some st) now vf s).1 = .forbidden "Access denied") ∧
    (st ∉ validStatuses →
      (updateStatus caller aid (some st) now vf s).1 = .badRequest "Invalid status") := by
  constructor
  · intro hst
    rcases (by simpa [validStatuses] using hst :
        st = "pending" ∨ st = "responding" ∨ st = "resolved" ∨ st = "cancelled") with
      rfl | rfl | rfl | rfl <;> simp [updateStatus, hrole, validStatuses]
  · intro hst
    simp [updateStatus, hst]

/-- Witness for the amended C4 at a valid status value. -/
theorem updateStatus_user_forbidden_witness :
    (⟨7, "user"⟩ : Caller).role = "user" ∧ "resolved" ∈ validStatuses ∧
    (updateStatus ⟨7, "user"⟩ 1 (some "resolved") 0 false ⟨[], [], 1⟩).1
      = .forbidden "Access denied" :=
  ⟨rfl, by decide,
   (updateStatus_user_forbidden ⟨7, "user"⟩ 1 "resolved" 0 false ⟨[], [], 1⟩ rfl).1
     (by decide)⟩

/-- C9: for every Update call by an admin or dispatcher on an existing
alert, every key present in the body is written verbatim to the record —
including status, user_id, alert_type, severity and assigned_vehicle_id,
with no enum-membership validation — and the vehicles table is untouched
(no reconciliation), so Update can store values Create and SetStatus
would reject. -/
theorem updateAlert_writes_body_verbatim (caller : Caller) (aid : Nat)
    (b : UpdateBody) (now : Nat) (s : St) (a : Alert)
    (hrole : caller.role = "admin" ∨ caller.role = "dispatcher")
    (hfind : s.findAlert aid = some a) :
    (updateAlert caller aid b now s).1 = .ok (mergeAlert a b now) ∧
    (updateAlert caller aid b now s).2.findAlert aid = some (mergeAlert a b now) ∧
    (updateAlert caller aid b now s).2.vehicles = s.vehicles ∧
    (∀ v, b.status = some v → (mergeAlert a b now).status = v) ∧
    (∀ v, b.user_id = some v → (mergeAlert a b now).user_id = v) ∧
    (∀ v, b.alert_type = some v → (mergeAlert a b now).alert_type = v) ∧
    (∀ v, b.severity = some v → (mergeAlert a b now).severity = v) ∧
    (∀ v, b.assigned_vehicle_id = some v →
      (mergeAlert a b now).assigned_vehicle_id = v) := by
  have hfind2 : s.alerts.find? (fun x => x.id == aid) = some a := hfind
  have hfind' : (updateAlertsRow aid (fun x => mergeAlert x b now) s.alerts).find?
      (fun x => x.id == aid) = some (mergeAlert a b now) := by
    rw [find?_updateAlertsRow_self aid (fun x => mergeAlert x b now) s.alerts
      (fun _ => rfl), hfind2]
    rfl
  refine ⟨?_, ?_, ?_, ?_, ?_, ?_, ?_, ?_⟩
  · rcases hrole with h | h <;> simp [updateAlert, h, hfind]
  · rcases hrole with h | h <;>
      simp [updateAlert, h, hfind, St.findAlert, hfind2, hfind']
  · rcases hrole with h | h <;> simp [updateAlert, h, hfind]
  · intro v hv; simp [mergeAlert, hv]
  · intro v hv; simp [mergeAlert, hv]
  · intro v hv; simp [mergeAlert, hv]
  · intro v hv; simp [mergeAlert, hv]
  · intro v hv; simp [mergeAlert, hv]

/-- Witness for C9: an admin writes an out-of-enum status, a forged
user_id and a vehicle id, all stored verbatim with no vehicle write. -/
theorem updateAlert_writes_body_verbatim_witness :
    (updateAlert ⟨9, "admin"⟩ 1
        { status := some "archived", user_id := some 99,
          assigned_vehicle_id := some (some 20) } 7 store1).1
      = .ok (mergeAlert alert1
          { status := some "archived", user_id := some 99,
            assigned_vehicle_id := some (some 20) } 7) ∧
    (mergeAlert alert1
        { status := some "archived", user_id := some 99,
          assigned_vehicle_id := some (some 20) } 7).status = "archived" ∧
    (updateAlert ⟨9, "admin"⟩ 1
        { status := some "archived", user_id := some 99,
          assigned_vehicle_id := some (some 20) } 7 store1).2.vehicles
      = store1.vehicles := by
  obtain ⟨h1, _, h3, h4, _⟩ := updateAlert_writes_body_verbatim ⟨9, "admin"⟩ 1
    { status := some "archived", user_id := some 99,
      assigned_vehicle_id := some (some 20) } 7 store1 alert1
    (Or.inl rfl) (by decide)
  exact ⟨h1, h4 "archived" rfl, h3⟩

theorem reconcile_responding (v : Nat) (hv : v ≠ 0) (vs : List Vehicle) :
    reconcileVehicleOnStatusChange (some v) "responding" false vs
      = setVehicleStatus v "responding" vs := by
  simp [reconcileVehicleOnStatusChange, jsTruthyNat, hv]

theorem reconcile_resolved (v : Nat) (hv : v ≠ 0) (vs : List Vehicle) :
    reconcileVehicleOnStatusChange (some v) "resolved" false vs
      = setVehicleStatus v "available" vs := by
  simp [reconcileVehicleOnStatusChange, jsTruthyNat, hv]

theorem reconcile_noop (vid : Option Nat) (st : String) (vf : Bool)
    (vs : List Vehicle) (h : st = "pending" ∨ st = "cancelled" ∨ vid = none) :
    reconcileVehicleOnStatusChange vid st vf vs = vs := by
  rcases h with rfl | rfl | rfl <;>
    simp [reconcileVehicleOnStatusChange, jsTruthyNat]

/-- C2: for every SetStatus call that succeeds with a new status on an
alert: if the status is `responding` the assigned vehicle's record is set
to status `responding`; if `resolved`, to `available`; and for `pending`
or `cancelled`, or when no vehicle is assigned, no vehicle record is
written.  (Vehicle ids are store-assigned and therefore nonzero.) -/
theorem updateStatus_vehicle_sync (caller : Caller) (aid : Nat) (st : String)
    (now : Nat) (s : St) (a : Alert)
    (hrole : caller.role = "admin" ∨ caller.role = "dispatcher" ∨
      caller.role = "rescuer")
    (hst : st ∈ validStatuses)
    (hfind : s.findAlert aid = some a) :
    (updateStatus caller aid (some st) now false s).1
      = .ok { a with status := st, updated_at := now } ∧
    (st = "responding" → ∀ v w, a.assigned_vehicle_id = some v → v ≠ 0 →
      s.findVehicle v = some w →
      ((updateStatus caller aid (some st) now false s).2).findVehicle v
        = some { w with status := "responding" }) ∧
    (st = "resolved" → ∀ v w, a.assigned_vehicle_id = some v → v ≠ 0 →
      s.findVehicle v = some w →
      ((updateStatus caller aid (some st) now false s).2).findVehicle v
        = some { w with status := "available" }) ∧
    ((st = "pending" ∨ st = "cancelled" ∨ a.assigned_vehicle_id = none) →
      ((updateStatus caller aid (some st) now false s).2).vehicles
        = s.vehicles) := by
  have hrole' : (["admin", "dispatcher", "rescuer"].contains caller.role) = true := by
    rcases hrole with h | h | h <;> simp [h]
  have hst' : validStatuses.contains st = true := by simpa using hst
  have heq := updateStatus_ok caller aid st now false s a hrole' hst' hfind
  refine ⟨?_, ?_, ?_, ?_⟩
  · rw [heq]
  · intro hresp v w hv hv0 hw
    subst hresp
    rw [heq]
    show (reconcileVehicleOnStatusChange a.assigned_vehicle_id "responding" false
        s.vehicles).find? (fun z => z.id == v) = _
    rw [hv, reconcile_responding v hv0, find?_setVehicleStatus_self]
    rw [show s.vehicles.find? (fun z => z.id == v) = some w from hw]
    rfl
  · intro hres v w hv hv0 hw
    subst hres
    rw [heq]
    show (reconcileVehicleOnStatusChange a.assigned_vehicle_id "resolved" false
        s.vehicles).find? (fun z => z.id == v) = _
    rw [hv, reconcile_resolved v hv0, find?_setVehicleStatus_self]
    rw [show s.vehicles.find? (fun z => z.id == v) = some w from hw]
    rfl
  · intro h
    rw [heq]
    exact reconcile_noop a.assigned_vehicle_id st false s.vehicles h

/-- Witness for C2: the spec scenario — alert 1 with vehicle 10 assigned
is set to `responding`; vehicle 10 becomes `responding`. -/
theorem updateStatus_vehicle_sync_witness :
    (updateStatus ⟨2, "dispatcher"⟩ 1 (some "responding") 5 false store1).1
      = .ok { alert1 with status := "responding", updated_at := 5 } ∧
    (updateStatus ⟨2, "dispatcher"⟩ 1 (some "responding") 5 false store1).2.findVehicle 10
      = some ⟨10, "responding"⟩ := by
  obtain ⟨h1, h2, _, _⟩ := updateStatus_vehicle_sync ⟨2, "dispatcher"⟩ 1
    "responding" 5 store1 alert1 (Or.inr (Or.inl rfl)) (by decide) (by decide)
  exact ⟨h1, h2 rfl 10 ⟨10, "assigned"⟩ (by decide) (by decide) (by decide)⟩

/-- C1: for every Assign call by an admin or dispatcher on an alert whose
current `assigned_vehicle_id` is some `vOld`, with a new vehicle id `vNew`
distinct from `vOld`: afterwards the alert's `assigned_vehicle_id` is
`vNew`, the old vehicle's status is `available` and the new vehicle's
status is `assigned`.  (Vehicle ids are store-assigned and nonzero.) -/
theorem assignAlert_replaces_vehicle (caller : Caller) (aid vOld vNew : Nat)
    (rid : Option Nat) (now : Nat) (s : St) (a : Alert) (wOld wNew : Vehicle)
    (hrole : caller.role = "admin" ∨ caller.role = "dispatcher")
    (hfind : s.findAlert aid = some a)
    (hcur : a.assigned_vehicle_id = some vOld)
    (hOld0 : vOld ≠ 0) (hNew0 : vNew ≠ 0) (hne : vNew ≠ vOld)
    (hwOld : s.findVehicle vOld = some wOld)
    (hwNew : s.findVehicle vNew = some wNew) :
    ((assignAlert caller aid (some vNew) rid now false false s).2.findAlert aid).map
        Alert.assigned_vehicle_id = some (some vNew) ∧
    (assignAlert caller aid (some vNew) rid now false false s).2.findVehicle vOld
      = some { wOld with status := "available" } ∧
    (assignAlert caller aid (some vNew) rid now false false s).2.findVehicle vNew
      = some { wNew with status := "assigned" } := by
  have hrole' : (["admin", "dispatcher"].contains caller.role) = true := by
    rcases hrole with h | h <;> simp [h]
  have heq := assignAlert_ok caller aid (some vNew) rid now false false s a hrole' hfind
  have hne' : vOld ≠ vNew := fun h => hne h.symm
  have htNew : jsTruthyNat (some vNew) = true := by simp [jsTruthyNat, hNew0]
  have hveh : (assignAlert caller aid (some vNew) rid now false false s).2.vehicles
      = setVehicleStatus vNew "assigned"
          (setVehicleStatus vOld "available" s.vehicles) := by
    rw [heq]
    show (let vehicles1 :=
        if jsTruthyNat a.assigned_vehicle_id &&
            !(a.assigned_vehicle_id == some vNew) && !false then
          setVehicleStatus (a.assigned_vehicle_id.getD 0) "available" s.vehicles
        else s.vehicles
      if jsTruthyNat (some vNew) && !false then
        setVehicleStatus ((some vNew).getD 0) "assigned" vehicles1
      else vehicles1) = _
    simp [hcur, jsTruthyNat, hOld0, hNew0, hne']
  refine ⟨?_, ?_, ?_⟩
  · rw [heq]
    show ((updateAlertsRow aid _ s.alerts).find? (fun x => x.id == aid)).map
        Alert.assigned_vehicle_id = _
    rw [find?_updateAlertsRow_self aid
      (fun x => { x with
          assigned_vehicle_id := if jsTruthyNat (some vNew) then some vNew else none,
          assigned_responder_id := if jsTruthyNat rid then rid else none,
          updated_at := now }) s.alerts (fun _ => rfl)]
    rw [show s.alerts.find? (fun x => x.id == aid) = some a from hfind]
    simp [htNew]
  · show St.findVehicle _ vOld = _
    rw [St.findVehicle, hveh, find?_setVehicleStatus_other vNew vOld _ _ hne',
        find?_setVehicleStatus_self]
    rw [show s.vehicles.find? (fun z => z.id == vOld) = some wOld from hwOld]
    rfl
  · show St.findVehicle _ vNew = _
    rw [St.findVehicle, hveh, find?_setVehicleStatus_self,
        find?_setVehicleStatus_other vOld vNew _ _ hne]
    rw [show s.vehicles.find? (fun z => z.id == vNew) = some wNew from hwNew]
    rfl

/-- Witness for C1: the spec scenario — alert 1 has vehicle 10 assigned;
assigning vehicle 20 stores 20 on the alert, releases 10 and claims 20. -/
theorem assignAlert_replaces_vehicle_witness :
    ((assignAlert ⟨2, "dispatcher"⟩ 1 (some 20) none 5 false false store1).2.findAlert 1).map
        Alert.assigned_vehicle_id = some (some 20) ∧
    (assignAlert ⟨2, "dispatcher"⟩ 1 (some 20) none 5 false false store1).2.findVehicle 10
      = some ⟨10, "available"⟩ ∧
    (assignAlert ⟨2, "dispatcher"⟩ 1 (some 20) none 5 false false store1).2.findVehicle 20
      = some ⟨20, "assigned"⟩ :=
  assignAlert_replaces_vehicle ⟨2, "dispatcher"⟩ 1 10 20 none 5 store1 alert1
    ⟨10, "assigned"⟩ ⟨20, "available"⟩ (Or.inr rfl) (by decide) (by decide)
    (by decide) (by decide) (by decide) (by decide) (by decide)

/-- C7: for every Assign and SetStatus call whose primary alert write
succeeds, the outcome of the secondary vehicle-status writes is never
surfaced: for every combination of vehicle-write failures the response is
the successfully updated alert, and the stored alert keeps that update
(the alert write is not reversed). -/
theorem secondary_vehicle_write_failures_isolated :
    (∀ (caller : Caller) (aid : Nat) (st : String) (now : Nat) (vf : Bool)
        (s : St) (a : Alert),
      (caller.role = "admin" ∨ caller.role = "dispatcher" ∨
        caller.role = "rescuer") →
      st ∈ validStatuses → s.findAlert aid = some a →
      (updateStatus caller aid (some st) now vf s).1
          = .ok { a with status := st, updated_at := now } ∧
        (updateStatus caller aid (some st) now vf s).2.findAlert aid
          = some { a with status := st, updated_at := now }) ∧
    (∀ (caller : Caller) (aid : Nat) (vid rid : Option Nat) (now : Nat)
        (ovf nvf : Bool) (s : St) (a : Alert),
      (caller.role = "admin" ∨ caller.role = "dispatcher") →
      s.findAlert aid = some a →
      (assignAlert caller aid vid rid now ovf nvf s).1
          = .ok { a with
              assigned_vehicle_id := if jsTruthyNat vid then vid else none,
              assigned_responder_id := if jsTruthyNat rid then rid else none,
              updated_at := now } ∧
        (assignAlert caller aid vid rid now ovf nvf s).2.findAlert aid
          = some { a with
              assigned_vehicle_id := if jsTruthyNat vid then vid else none,
              assigned_responder_id := if jsTruthyNat rid then rid else none,
              updated_at := now }) := by
  constructor
  · intro caller aid st now vf s a hrole hst hfind
    have hrole' : (["admin", "dispatcher", "rescuer"].contains caller.role) = true := by
      rcases hrole with h | h | h <;> simp [h]
    have hst' : validStatuses.contains st = true := by simpa using hst
    have heq := updateStatus_ok caller aid st now vf s a hrole' hst' hfind
    refine ⟨by rw [heq], ?_⟩
    rw [heq]
    show (updateAlertsRow aid _ s.alerts).find? (fun x => x.id == aid) = _
    rw [find?_updateAlertsRow_self aid
      (fun x => { x with status := st, updated_at := now }) s.alerts (fun _ => rfl)]
    rw [show s.alerts.find? (fun x => x.id == aid) = some a from hfind]
    rfl
  · intro caller aid vid rid now ovf nvf s a hrole hfind
    have hrole' : (["admin", "dispatcher"].contains caller.role) = true := by
      rcases hrole with h | h <;> simp [h]
    have heq := assignAlert_ok caller aid vid rid now ovf nvf s a hrole' hfind
    refine ⟨by rw [heq], ?_⟩
    rw [heq]
    show (updateAlertsRow aid _ s.alerts).find? (fun x => x.id == aid) = _
    rw [find?_updateAlertsRow_self aid
      (fun x => { x with
          assigned_vehicle_id := if jsTruthyNat vid then vid else none,
          assigned_responder_id := if jsTruthyNat rid then rid else none,
          updated_at := now }) s.alerts (fun _ => rfl)]
    rw [show s.alerts.find? (fun x => x.id == aid) = some a from hfind]
    rfl

/-- Witness for C7: with every secondary vehicle write failing, SetStatus
and Assign still respond with the updated alert and store it. -/
theorem secondary_vehicle_write_failures_isolated_witness :
    ((updateStatus ⟨2, "dispatcher"⟩ 1 (some "responding") 5 true store1).1
      = .ok { alert1 with status := "responding", updated_at := 5 } ∧
     (updateStatus ⟨2, "dispatcher"⟩ 1 (some "responding") 5 true store1).2.findAlert 1
      = some { alert1 with status := "responding", updated_at := 5 }) ∧
    ((assignAlert ⟨2, "dispatcher"⟩ 1 (some 20) none 5 true true store1).1
      = .ok { alert1 with assigned_vehicle_id := some 20, assigned_responder_id := none, updated_at := 5 } ∧
     (assignAlert ⟨2, "dispatcher"⟩ 1 (some 20) none 5 true true store1).2.findAlert 1
      = some { alert1 with assigned_vehicle_id := some 20, assigned_responder_id := none, updated_at := 5 }) := by
  have h1 := secondary_vehicle_write_failures_isolated.1 ⟨2, "dispatcher"⟩ 1
    "responding" 5 true store1 alert1 (Or.inr (Or.inl rfl)) (by decide) (by decide)
  have h2 := secondary_vehicle_write_failures_isolated.2 ⟨2, "dispatcher"⟩ 1
    (some 20) none 5 true true store1 alert1 (Or.inr rfl) (by decide)
  exact ⟨h1, by simpa using h2⟩

end RescueLink
